import Mathlib

/-!
Shallow embedding of `src/k8s/operator/controller.py` (class `DProfilerOperator`),
the Kubernetes operator reconciling `AlgorithmProfiling` and `AlgorithmComparison`
custom resources against the dProfiler API.

Modelling conventions:
* Every outward-visible action of a controller method (HTTP call to the dProfiler
  API, Kubernetes batch-job call, status patch) is recorded as an `Event` in a
  trace, in the order the Python code performs it.
* Backend responses are supplied explicitly: a `PostResult` for each POST the
  code may issue, and a list of poll responses for each monitoring loop (the
  unbounded `while True` loops are driven by the finite list of responses; an
  exhausted list yields the `Outcome.polling` marker, meaning the loop is still
  running).
* Python exceptions are the `Outcome.raised` constructor carrying the message;
  `try/except` blocks in the source become matches on that outcome.
* Methods that patch the resource status swallow their own Kubernetes API errors
  (`try/except` around the patch that only logs), so status writes never raise
  and are always recorded.
-/

namespace DProfiler

/-- ML configuration block of a profiling resource spec (`spec['mlConfig']`,
a Python dict accessed with `.get` and per-site defaults; an absent dict is the
record with every field `none`). -/
structure MLConfig where
  task : Option String
  framework : Option String
  datasetSize : Option Nat
  nFeatures : Option Nat
  nSelect : Option Nat
  algorithm : Option String
deriving DecidableEq, Repr

/-- The all-`none` ML config, i.e. `spec.get('mlConfig', {})` when absent. -/
def MLConfig.empty : MLConfig :=
  ⟨none, none, none, none, none, none⟩

/-- Custom-algorithm configuration block (`spec['customConfig']`). -/
structure CustomConfig where
  image : Option String
  command : Option (List String)
  args : Option (List String)
deriving DecidableEq, Repr

def CustomConfig.empty : CustomConfig :=
  ⟨none, none, none⟩

/-- Declared spec of an `AlgorithmProfiling` resource.  Fields accessed with
`spec[...]` in the source are required here; fields accessed with
`spec.get(...)` are `Option`, with the source's default applied at the use
site.  `timeout` appears in the resource schema but is never read by the
controller. -/
structure PSpec where
  algorithmType : Option String
  algorithmName : String
  inputSize : Nat
  priority : Option Nat
  iterations : Option Nat
  timeout : Option Nat
  mlConfig : MLConfig
  customConfig : CustomConfig
deriving DecidableEq, Repr

/-- Observed status subtree of an `AlgorithmProfiling` resource
(`obj['status']`). -/
structure PStatus where
  phase : Option String
  jobId : Option String
deriving DecidableEq, Repr

/-- An `AlgorithmProfiling` custom resource as the event handlers see it.
`status` is `Option` because a fresh resource has no status subtree
(`obj['status']` raises `KeyError` then). -/
structure Resource where
  name : String
  spec : PSpec
  status : Option PStatus
deriving DecidableEq, Repr

/-- Declared spec of an `AlgorithmComparison` resource.  The controller reads
only `spec['inputSize']`; the declared `algorithms` list is never consulted. -/
structure CSpec where
  algorithms : List String
  inputSize : Nat
deriving DecidableEq, Repr

/-- An `AlgorithmComparison` custom resource. -/
structure CResource where
  name : String
  spec : CSpec
deriving DecidableEq, Repr

/-- One backend API call issued by the controller, with the payload fields the
source puts in the request. -/
inductive ApiCall where
  /-- `POST /api/v1/jobs` with `algorithm_name`, `input_size`, `priority`. -/
  | postJobs (algorithmName : String) (inputSize : Nat) (priority : Nat)
  /-- `POST /api/v1/ml/feature-selection`. -/
  | postFeatureSelection (framework : String)
      (datasetSize nFeatures nSelect iterations : Nat)
  /-- `POST /api/v1/ml/hyperparameter-tuning`. -/
  | postHyperparameterTuning (algorithm framework : String)
      (datasetSize nFeatures iterations : Nat)
  /-- `POST /api/v1/ml/distributed-training`. -/
  | postDistributedTraining (algorithm framework : String)
      (datasetSize nFeatures iterations : Nat)
  /-- `POST /api/v1/ml/compare-frameworks` with `dataset_size`. -/
  | postCompareFrameworks (datasetSize : Nat)
  /-- `GET /api/v1/jobs/{jobId}` — a poll of the profiling service. -/
  | getJob (jobId : String)
  /-- `GET /api/v1/jobs/{jobId}/results`. -/
  | getJobResults (jobId : String)
  /-- `DELETE /api/v1/jobs/{jobId}`. -/
  | deleteJob (jobId : String)
  /-- `BatchV1Api.create_namespaced_job` with the container settings. -/
  | createBatchJob (jobName image : String) (command args : List String)
  /-- `BatchV1Api.read_namespaced_job` — a poll of the compute cluster. -/
  | readBatchJob (jobName : String)
deriving DecidableEq, Repr

/-- The condition/status patch built by `update_algorithm_profiling_phase` and
`update_algorithm_comparison_phase` (both build the identical shape). -/
structure PhasePatch where
  phase : String
  ready : Bool
  reason : String
  message : String
  setsStartTime : Bool
  setsCompletionTime : Bool
deriving DecidableEq, Repr

/-- Mirrors the patch construction of the two `update_*_phase` methods:
`reason` is the phase string itself, `status` of the Ready condition is true
exactly for Completed, the default message is `"<noun> <phase.lower()>"`,
`startTime` is stamped for Running and `completionTime` for Completed/Failed. -/
def mkPhasePatch (noun phase : String) (message : Option String) : PhasePatch :=
  { phase := phase
  , ready := phase == "Completed"
  , reason := phase
  , message := message.getD (noun ++ " " ++ phase.toLower)
  , setsStartTime := phase == "Running"
  , setsCompletionTime := phase == "Completed" || phase == "Failed" }

/-- One status patch applied through the custom-objects API. -/
inductive StatusWrite where
  /-- `update_algorithm_profiling_phase` (noun "Algorithm profiling"). -/
  | phase (name : String) (patch : PhasePatch)
  /-- `update_algorithm_profiling_job_id`. -/
  | jobId (name jobId : String)
  /-- `update_algorithm_profiling_results`. -/
  | results (name : String)
  /-- `update_algorithm_comparison_phase` (noun "Algorithm comparison"). -/
  | comparisonPhase (name : String) (patch : PhasePatch)
  /-- `update_algorithm_comparison_id`. -/
  | comparisonId (name comparisonId : String)
  /-- `update_algorithm_comparison_results`. -/
  | comparisonResults (name : String)
deriving DecidableEq, Repr

/-- One outward-visible action of the controller. -/
inductive Event where
  | call (c : ApiCall)
  | write (w : StatusWrite)
deriving DecidableEq, Repr

/-- A trace of actions, in execution order. -/
abbrev Trace := List Event

/-- How a controller routine ends: returned normally, propagated a Python
exception, or is still inside an unbounded polling loop when the supplied
poll responses ran out. -/
inductive Outcome where
  | finished
  | raised (e : String)
  | polling
deriving DecidableEq, Repr

/-- Result of one `await client.post(...)` plus the subsequent
`response.raise_for_status()`: the await itself raised, the response carried
an HTTP error status (so `raise_for_status` raises), or it succeeded and
`response.json()['job_id']` (resp. `comparison_id`) is `id`. -/
inductive PostResult where
  | raised (e : String)
  | httpError (e : String)
  | ok (id : String)
deriving DecidableEq, Repr

/-- One iteration's worth of backend answers inside `monitor_profiling_job`:
either the `GET /jobs/{id}` raised (network error — caught, sleep 30,
continue), or it returned a job `status` string; `resultsOk` says whether the
follow-up results fetch (only issued when `status == 'completed'`) succeeds. -/
inductive PollStep where
  | err
  | st (status : String) (resultsOk : Bool)
deriving DecidableEq, Repr

/-- One iteration's worth of answers inside `monitor_custom_job`: the
`read_namespaced_job` raised, or returned a job whose `status.succeeded` /
`status.failed` truthiness is as given. -/
inductive CustomPollStep where
  | err
  | st (succeeded failed : Bool)
deriving DecidableEq, Repr

/-- `monitor_profiling_job(obj, job_id)`: poll `GET /jobs/{jobId}` forever;
on `'completed'` fetch results and patch them (a failing results fetch is
caught by the surrounding `except`, which sleeps and re-enters the loop); on
`'failed'` patch phase Failed with message "Job failed"; any other status
sleeps 10s and polls again; exceptions sleep 30s and poll again.  Driven by
the finite list `polls`; exhausting it leaves the loop `polling`. -/
def monitorProfilingJob (name jobId : String) :
    List PollStep → Trace × Outcome
  | [] => ([], .polling)
  | .err :: rest =>
      (.call (.getJob jobId) :: (monitorProfilingJob name jobId rest).1,
       (monitorProfilingJob name jobId rest).2)
  | .st status resultsOk :: rest =>
      if status = "completed" then
        if resultsOk then
          ([.call (.getJob jobId), .call (.getJobResults jobId),
            .write (.results name)], .finished)
        else
          (.call (.getJob jobId) :: .call (.getJobResults jobId) ::
             (monitorProfilingJob name jobId rest).1,
           (monitorProfilingJob name jobId rest).2)
      else if status = "failed" then
        ([.call (.getJob jobId),
          .write (.phase name
            (mkPhasePatch "Algorithm profiling" "Failed" (some "Job failed")))],
         .finished)
      else
        (.call (.getJob jobId) :: (monitorProfilingJob name jobId rest).1,
         (monitorProfilingJob name jobId rest).2)

/-- `monitor_custom_job(obj, job_name)`: poll `read_namespaced_job` forever;
`status.succeeded` truthy patches phase Completed, else `status.failed`
truthy patches phase Failed with "Custom job failed"; otherwise sleep and
poll again; exceptions sleep 30s and poll again. -/
def monitorCustomJob (name jobName : String) :
    List CustomPollStep → Trace × Outcome
  | [] => ([], .polling)
  | .err :: rest =>
      (.call (.readBatchJob jobName) :: (monitorCustomJob name jobName rest).1,
       (monitorCustomJob name jobName rest).2)
  | .st succeeded failed :: rest =>
      if succeeded then
        ([.call (.readBatchJob jobName),
          .write (.phase name
            (mkPhasePatch "Algorithm profiling" "Completed" none))], .finished)
      else if failed then
        ([.call (.readBatchJob jobName),
          .write (.phase name
            (mkPhasePatch "Algorithm profiling" "Failed"
              (some "Custom job failed")))], .finished)
      else
        (.call (.readBatchJob jobName) :: (monitorCustomJob name jobName rest).1,
         (monitorCustomJob name jobName rest).2)

/-- Backend answers for one reconciliation of an `AlgorithmProfiling`
resource: the response to whichever dispatch POST the controller issues, and
the poll answers for whichever monitor loop it enters. -/
structure ProfilingEnv where
  sortingPost : PostResult
  mlPost : PostResult
  customCreate : PostResult
  sortingPolls : List PollStep
  customPolls : List CustomPollStep
deriving Repr

/-- `create_sorting_profiling_job(obj)`: POST the job, `raise_for_status`,
patch the job id into the status, then monitor until completion.  Any
exception is re-raised to the caller.  The POST attempt is recorded even when
it raises. -/
def createSortingProfilingJob (r : Resource) (post : PostResult)
    (polls : List PollStep) : Trace × Outcome :=
  let c : Event := .call (.postJobs r.spec.algorithmName r.spec.inputSize
    (r.spec.priority.getD 5))
  match post with
  | .raised e => ([c], .raised e)
  | .httpError e => ([c], .raised e)
  | .ok jobId =>
      (c :: .write (.jobId r.name jobId) ::
         (monitorProfilingJob r.name jobId polls).1,
       (monitorProfilingJob r.name jobId polls).2)

/-- The message of the Python `UnboundLocalError` raised when
`create_ml_profiling_job` reaches `response.raise_for_status()` and no task
branch assigned `response`. -/
def unboundLocalMsg : String :=
  "UnboundLocalError: local variable response referenced before assignment"

/-- The task branch of `create_ml_profiling_job`: which POST (if any) is
issued for `mlConfig.get('task', 'feature_selection')`, with the payload
defaults of each branch.  `none` means no branch assigned `response`. -/
def mlTaskCall (sp : PSpec) : Option ApiCall :=
  let ml := sp.mlConfig
  let task := ml.task.getD "feature_selection"
  let framework := ml.framework.getD "sklearn"
  let iterations := sp.iterations.getD 1
  if task = "feature_selection" then
    some (.postFeatureSelection framework
      (ml.datasetSize.getD 10000) (ml.nFeatures.getD 100)
      (ml.nSelect.getD 20) iterations)
  else if task = "hyperparameter_tuning" then
    some (.postHyperparameterTuning (ml.algorithm.getD "random_forest")
      framework (ml.datasetSize.getD 5000) (ml.nFeatures.getD 50) iterations)
  else if task = "distributed_training" then
    some (.postDistributedTraining (ml.algorithm.getD "random_forest")
      framework (ml.datasetSize.getD 100000) (ml.nFeatures.getD 100)
      iterations)
  else
    none

/-- `create_ml_profiling_job(obj)`: branch on `mlConfig.get('task',
'feature_selection')`; each known task issues one synchronous POST, after
which `response.raise_for_status()` runs, the job id is patched, and the
results from the response body are patched immediately (no monitor).  A task
outside the three known ones reaches `response.raise_for_status()` with the
local `response` never assigned — `UnboundLocalError`. -/
def createMLProfilingJob (r : Resource) (post : PostResult) :
    Trace × Outcome :=
  match mlTaskCall r.spec with
  | none =>
      ([], .raised unboundLocalMsg)
  | some c =>
      match post with
      | .raised e => ([.call c], .raised e)
      | .httpError e => ([.call c], .raised e)
      | .ok jobId =>
          ([.call c, .write (.jobId r.name jobId), .write (.results r.name)],
           .finished)

/-- `create_custom_profiling_job(obj)`: create a Kubernetes batch job named
`dprofiler-<name>` from the `customConfig` container settings, patch its name
as the job id, then monitor it.  A creation failure is re-raised. -/
def createCustomProfilingJob (r : Resource) (create : PostResult)
    (polls : List CustomPollStep) : Trace × Outcome :=
  let jobName := "dprofiler-" ++ r.name
  let cc := r.spec.customConfig
  let c : Event := .call (.createBatchJob jobName (cc.image.getD "alpine:latest")
    (cc.command.getD ["echo"]) (cc.args.getD ["Hello World"]))
  match create with
  | .raised e => ([c], .raised e)
  | .httpError e => ([c], .raised e)
  | .ok _ =>
      (c :: .write (.jobId r.name jobName) ::
         (monitorCustomJob r.name jobName polls).1,
       (monitorCustomJob r.name jobName polls).2)

/-- The `algorithm_type` branch inside `create_algorithm_profiling_job`:
`'ml'` and `'custom'` select their strategies, anything else (including the
default `'sorting'`) takes the sorting path. -/
def dispatchByClass (r : Resource) (env : ProfilingEnv) : Trace × Outcome :=
  match r.spec.algorithmType.getD "sorting" with
  | "ml" => createMLProfilingJob r env.mlPost
  | "custom" => createCustomProfilingJob r env.customCreate env.customPolls
  | _ => createSortingProfilingJob r env.sortingPost env.sortingPolls

/-- `create_algorithm_profiling_job(obj)`: unconditionally patch phase
Running first, then dispatch by `spec.get('algorithmType', 'sorting')`;
the surrounding `except Exception` turns any raised error into a
phase-Failed patch whose message is the exception text. -/
def createAlgorithmProfilingJob (r : Resource) (env : ProfilingEnv) :
    Trace × Outcome :=
  let running : Event :=
    .write (.phase r.name (mkPhasePatch "Algorithm profiling" "Running" none))
  match dispatchByClass r env with
  | (t, .raised e) =>
      (running :: t ++
        [.write (.phase r.name
          (mkPhasePatch "Algorithm profiling" "Failed" (some e)))],
       .finished)
  | (t, o) => (running :: t, o)

/-- `cleanup_algorithm_profiling_job(obj)`: read `obj['status']` (KeyError if
the status subtree is absent), and if `jobId` is set issue one
`DELETE /jobs/{jobId}` whose errors are caught and only logged. -/
def cleanupAlgorithmProfilingJob (r : Resource) : Trace × Outcome :=
  match r.status with
  | none => ([], .raised "KeyError: status")
  | some st =>
      match st.jobId with
      | some j => ([.call (.deleteJob j)], .finished)
      | none => ([], .finished)

/-- The method names defined on class `DProfilerOperator` in
`controller.py`, in source order. -/
def classMethods : List String :=
  ["__init__", "start",
   "watch_algorithm_profilings", "watch_algorithm_comparisons",
   "handle_algorithm_profiling_event", "handle_algorithm_comparison_event",
   "create_algorithm_profiling_job", "create_sorting_profiling_job",
   "create_ml_profiling_job", "create_custom_profiling_job",
   "create_algorithm_comparison_job",
   "monitor_profiling_job", "monitor_custom_job",
   "update_algorithm_profiling_phase", "update_algorithm_profiling_job_id",
   "update_algorithm_profiling_results",
   "update_algorithm_comparison_phase", "update_algorithm_comparison_id",
   "update_algorithm_comparison_results",
   "cleanup_algorithm_profiling_job", "cleanup_algorithm_comparison_job"]

/-- Python attribute lookup on `self`: `self.m(...)` first resolves `m`
against the class; an undefined method raises `AttributeError` before any
body can run, otherwise the body `k` runs. -/
def callMethod (m : String) (k : Unit → Trace × Outcome) : Trace × Outcome :=
  if m ∈ classMethods then k () else ([], .raised ("AttributeError: " ++ m))

/-- `handle_algorithm_profiling_event(event)`: dispatch on `event['type']`.
`MODIFIED` calls `self.update_algorithm_profiling_status(obj)`, a method the
class never defines, so attribute lookup raises before any action; the
continuation passed to `callMethod` is therefore unreachable. -/
def handleAlgorithmProfilingEvent (eventType : String) (r : Resource)
    (env : ProfilingEnv) : Trace × Outcome :=
  if eventType = "ADDED" then
    createAlgorithmProfilingJob r env
  else if eventType = "MODIFIED" then
    callMethod "update_algorithm_profiling_status" (fun _ => ([], .finished))
  else if eventType = "DELETED" then
    cleanupAlgorithmProfilingJob r
  else
    ([], .finished)

/-- `create_algorithm_comparison_job(obj)`: patch phase Running, then issue a
single `POST /ml/compare-frameworks` with `dataset_size = spec['inputSize']`
(the declared `algorithms` list is never read); on success patch the
comparison id and the results; the surrounding `except Exception` turns any
raised error into a phase-Failed patch. -/
def createAlgorithmComparisonJob (r : CResource) (post : PostResult) :
    Trace × Outcome :=
  let running : Event :=
    .write (.comparisonPhase r.name
      (mkPhasePatch "Algorithm comparison" "Running" none))
  let c : Event := .call (.postCompareFrameworks r.spec.inputSize)
  match post with
  | .raised e =>
      ([running, c,
        .write (.comparisonPhase r.name
          (mkPhasePatch "Algorithm comparison" "Failed" (some e)))],
       .finished)
  | .httpError e =>
      ([running, c,
        .write (.comparisonPhase r.name
          (mkPhasePatch "Algorithm comparison" "Failed" (some e)))],
       .finished)
  | .ok cid =>
      ([running, c, .write (.comparisonId r.name cid),
        .write (.comparisonResults r.name)], .finished)

/-- `handle_algorithm_comparison_event(event)`: `MODIFIED` calls the
undefined `self.update_algorithm_comparison_status(obj)`; `DELETED` runs
`cleanup_algorithm_comparison_job`, which only logs. -/
def handleAlgorithmComparisonEvent (eventType : String) (r : CResource)
    (post : PostResult) : Trace × Outcome :=
  if eventType = "ADDED" then
    createAlgorithmComparisonJob r post
  else if eventType = "MODIFIED" then
    callMethod "update_algorithm_comparison_status" (fun _ => ([], .finished))
  else if eventType = "DELETED" then
    ([], .finished)
  else
    ([], .finished)

/-- How one pass of a watch loop body (`while True: try: for event in
stream: await handle(event)  except: sleep(5)`) ends: the stream ran dry, a
handler raised so the remaining events of this stream are abandoned and the
loop reconnects after a 5-second sleep, or a handler is stuck in an unbounded
monitor loop. -/
inductive WatchOutcome where
  | streamEnded
  | reconnect (sleepSeconds : Nat) (abandoned : List (String × Resource))
  | blocked
deriving DecidableEq, Repr

/-- One pass of `watch_algorithm_profilings` over the events a single watch
stream delivers: process them strictly in order; the first exception escapes
the `for` loop into the `except`, which sleeps 5 seconds and reconnects,
dropping the rest of this stream's events. -/
def watchProfilingPass (env : ProfilingEnv) :
    List (String × Resource) → Trace × WatchOutcome
  | [] => ([], .streamEnded)
  | (et, r) :: rest =>
      match handleAlgorithmProfilingEvent et r env with
      | (t, .finished) =>
          (t ++ (watchProfilingPass env rest).1, (watchProfilingPass env rest).2)
      | (t, .raised _) => (t, .reconnect 5 rest)
      | (t, .polling) => (t, .blocked)

/-- Is this event a backend job-creation (dispatch) call? -/
def Event.isCreationCall : Event → Bool
  | .call (.postJobs ..) => true
  | .call (.postFeatureSelection ..) => true
  | .call (.postHyperparameterTuning ..) => true
  | .call (.postDistributedTraining ..) => true
  | .call (.postCompareFrameworks ..) => true
  | .call (.createBatchJob ..) => true
  | _ => false

/-- Is this event a poll of a backend job's status? -/
def Event.isPollCall : Event → Bool
  | .call (.getJob _) => true
  | .call (.readBatchJob _) => true
  | _ => false

/-- Is this event a delete/cancel call referencing job `j`? -/
def Event.isDeleteOf (j : String) : Event → Bool
  | .call (.deleteJob j') => j' == j
  | _ => false

/-- The phase value a status write carries, if it is a phase write. -/
def Event.phaseOf : Event → Option String
  | .write (.phase _ p) => some p.phase
  | .write (.comparisonPhase _ p) => some p.phase
  | _ => none

/-- Number of backend job-creation calls in a trace. -/
def creationCalls (t : Trace) : Nat := t.countP (fun e => e.isCreationCall)

/-- Number of backend poll calls in a trace. -/
def pollCalls (t : Trace) : Nat := t.countP (fun e => e.isPollCall)

/-- Number of delete calls referencing job `j` in a trace. -/
def deleteCallsOf (j : String) (t : Trace) : Nat :=
  t.countP (fun e => e.isDeleteOf j)

/-- The sequence of phase values written by a trace, in order. -/
def phasesWritten (t : Trace) : List String :=
  t.filterMap Event.phaseOf

/-- The condition reason a status write carries, if it is a phase write. -/
def Event.reasonOf : Event → Option String
  | .write (.phase _ p) => some p.reason
  | .write (.comparisonPhase _ p) => some p.reason
  | _ => none

/-- The sequence of condition reasons written by a trace, in order. -/
def reasonsWritten (t : Trace) : List String :=
  t.filterMap Event.reasonOf

/-- A poll answer that is not a terminal report from the backend: either the
poll errored, or the reported status is neither `'completed'` nor
`'failed'`. -/
def PollStep.nonTerminal : PollStep → Bool
  | .err => true
  | .st s _ => !(s == "completed") && !(s == "failed")

section Fixtures

/-- A plain sorting-class spec (the `sort-1000` scenario shape), declaring
`timeout = 5`. -/
def sortSpec : PSpec :=
  { algorithmType := none
  , algorithmName := "bubble_sort"
  , inputSize := 1000
  , priority := none
  , iterations := none
  , timeout := some 5
  , mlConfig := .empty
  , customConfig := .empty }

/-- The `fs-1` scenario spec: ML class, feature-selection task. -/
def fsSpec : PSpec :=
  { algorithmType := some "ml"
  , algorithmName := "feature_selection"
  , inputSize := 10000
  , priority := none
  , iterations := none
  , timeout := none
  , mlConfig :=
      { task := some "feature_selection"
      , framework := some "sklearn"
      , datasetSize := some 10000
      , nFeatures := some 100
      , nSelect := some 20
      , algorithm := none }
  , customConfig := .empty }

/-- An ML-class spec whose task matches none of the three known tasks. -/
def badTaskSpec : PSpec :=
  { fsSpec with mlConfig := { fsSpec.mlConfig with task := some "clustering" } }

/-- A backend environment where every call succeeds and every monitored job
completes on the first poll. -/
def envOk : ProfilingEnv :=
  { sortingPost := .ok "J2"
  , mlPost := .ok "J7"
  , customCreate := .ok "dprofiler-x"
  , sortingPolls := [.st "completed" true]
  , customPolls := [.st true false] }

/-- A backend environment whose sorting job never reports a terminal state
within the supplied polls. -/
def envNeverDone : ProfilingEnv :=
  { envOk with sortingPolls := [.st "running" true, .st "running" true] }

/-- A backend environment whose sorting dispatch returns an HTTP error. -/
def envDispatchErr : ProfilingEnv :=
  { envOk with sortingPost := .httpError "boom" }

/-- A backend environment whose ML dispatch raises a network exception. -/
def envMLRaised : ProfilingEnv :=
  { envOk with mlPost := .raised "connection error" }

/-- `sort-1000` redelivered: its status already carries `jobId = "J1"`. -/
def redeliveredSort : Resource :=
  ⟨"sort-1000", sortSpec, some ⟨some "Pending", some "J1"⟩⟩

/-- A resource already in the terminal phase Failed. -/
def failedSort : Resource :=
  ⟨"sort-done", sortSpec, some ⟨some "Failed", some "J1"⟩⟩

/-- The `fs-1` scenario resource, freshly created (no status). -/
def fs1 : Resource := ⟨"fs-1", fsSpec, none⟩

/-- An ML-class resource being deleted while its status carries a job id. -/
def mlDeleted : Resource :=
  ⟨"ml-del", fsSpec, some ⟨some "Running", some "J9"⟩⟩

/-- A comparison resource declaring three algorithm entries. -/
def cmpABC : CResource := ⟨"cmp-abc", ⟨["A", "B", "C"], 1000⟩⟩

end Fixtures

section TraceLemmas

@[simp] theorem isPollCall_write (w : StatusWrite) :
    (Event.write w).isPollCall = false := rfl

@[simp] theorem isCreationCall_write (w : StatusWrite) :
    (Event.write w).isCreationCall = false := rfl

@[simp] theorem phaseOf_call (a : ApiCall) : (Event.call a).phaseOf = none := rfl

@[simp] theorem isPollCall_getJob (j : String) :
    (Event.call (.getJob j)).isPollCall = true := rfl

@[simp] theorem isPollCall_getJobResults (j : String) :
    (Event.call (.getJobResults j)).isPollCall = false := rfl

@[simp] theorem isPollCall_readBatchJob (j : String) :
    (Event.call (.readBatchJob j)).isPollCall = true := rfl

@[simp] theorem isCreationCall_postJobs (a : String) (n p : Nat) :
    (Event.call (.postJobs a n p)).isCreationCall = true := rfl

@[simp] theorem isCreationCall_getJob (j : String) :
    (Event.call (.getJob j)).isCreationCall = false := rfl

@[simp] theorem isCreationCall_getJobResults (j : String) :
    (Event.call (.getJobResults j)).isCreationCall = false := rfl

@[simp] theorem isCreationCall_readBatchJob (j : String) :
    (Event.call (.readBatchJob j)).isCreationCall = false := rfl

@[simp] theorem isCreationCall_createBatchJob (n i : String) (c a : List String) :
    (Event.call (.createBatchJob n i c a)).isCreationCall = true := rfl

@[simp] theorem reasonOf_call (a : ApiCall) : (Event.call a).reasonOf = none := rfl

@[simp] theorem phaseOf_jobId (nm j : String) :
    (Event.write (.jobId nm j)).phaseOf = none := rfl

@[simp] theorem phaseOf_results (nm : String) :
    (Event.write (.results nm)).phaseOf = none := rfl

@[simp] theorem phaseOf_phase (nm : String) (p : PhasePatch) :
    (Event.write (.phase nm p)).phaseOf = some p.phase := rfl

/-- Whatever POST the ML task branch selects is a job-creation call and not
a poll. -/
theorem mlTaskCall_creation (sp : PSpec) (a : ApiCall)
    (h : mlTaskCall sp = some a) :
    (Event.call a).isCreationCall = true ∧ (Event.call a).isPollCall = false := by
  unfold mlTaskCall at h
  simp only [] at h
  split_ifs at h
  all_goals first
    | exact Option.noConfusion h
    | (cases h; exact ⟨rfl, rfl⟩)

/-- Shape of the ML dispatch path: no polls, at most one creation call, and
no phase write of its own. -/
theorem mlPathShape (r : Resource) (post : PostResult) :
    pollCalls (createMLProfilingJob r post).1 = 0 ∧
    creationCalls (createMLProfilingJob r post).1 ≤ 1 ∧
    phasesWritten (createMLProfilingJob r post).1 = [] := by
  unfold createMLProfilingJob
  rcases hc : mlTaskCall r.spec with _ | a
  · exact ⟨rfl, by simp [creationCalls], rfl⟩
  · obtain ⟨h1, h2⟩ := mlTaskCall_creation r.spec a hc
    cases post <;>
      simp [pollCalls, creationCalls, phasesWritten, List.countP_cons, h1, h2]

/-- The profiling-service monitor loop issues no job-creation call. -/
theorem monitorProfilingJob_no_creation (nm j : String)
    (polls : List PollStep) :
    creationCalls (monitorProfilingJob nm j polls).1 = 0 := by
  induction polls with
  | nil => rfl
  | cons p rest ih =>
    simp only [creationCalls] at ih ⊢
    cases p with
    | err => simp [monitorProfilingJob, List.countP_cons, ih]
    | st s rOk =>
      unfold monitorProfilingJob
      split_ifs <;> simp [List.countP_cons, ih]

/-- The compute-cluster monitor loop issues no job-creation call. -/
theorem monitorCustomJob_no_creation (nm j : String)
    (polls : List CustomPollStep) :
    creationCalls (monitorCustomJob nm j polls).1 = 0 := by
  induction polls with
  | nil => rfl
  | cons p rest ih =>
    simp only [creationCalls] at ih ⊢
    cases p with
    | err => simp [monitorCustomJob, List.countP_cons, ih]
    | st s f =>
      unfold monitorCustomJob
      split_ifs <;> simp [List.countP_cons, ih]

/-- Every dispatch path — sorting, ML or custom, whatever the backend does —
issues at most one job-creation call. -/
theorem dispatch_creation_calls_le_one (r : Resource) (env : ProfilingEnv) :
    creationCalls (dispatchByClass r env).1 ≤ 1 := by
  unfold dispatchByClass
  split
  · exact (mlPathShape r env.mlPost).2.1
  · have hm := monitorCustomJob_no_creation r.name ("dprofiler-" ++ r.name)
      env.customPolls
    simp only [creationCalls] at hm ⊢
    unfold createCustomProfilingJob
    cases env.customCreate <;> simp [List.countP_cons, hm]
  · have hm := fun j => monitorProfilingJob_no_creation r.name j env.sortingPolls
    simp only [creationCalls] at hm ⊢
    unfold createSortingProfilingJob
    cases env.sortingPost <;> simp [List.countP_cons, hm]

end TraceLemmas

/-- Claim C1, amended: handling an Added event never inspects the resource's
observed status — in particular not `jobId` — so a redelivered Added event
for a resource whose status already carries a job handle performs exactly the
same actions (including the backend job-creation call) as the first
delivery.  Dispatch is per delivery, not at most once per resource. -/
theorem added_event_ignores_status (nm : String) (sp : PSpec)
    (st st' : Option PStatus) (env : ProfilingEnv) :
    handleAlgorithmProfilingEvent "ADDED" ⟨nm, sp, st⟩ env
      = handleAlgorithmProfilingEvent "ADDED" ⟨nm, sp, st'⟩ env := rfl

/-- Claim C1, counterexample: redelivering an Added event for `sort-1000`,
whose status already has `jobId = "J1"`, produces a (second) backend
job-creation call — the claim demands zero. -/
theorem added_redelivery_makes_second_creation_call :
    redeliveredSort.status = some ⟨some "Pending", some "J1"⟩ ∧
    creationCalls
      (handleAlgorithmProfilingEvent "ADDED" redeliveredSort envOk).1 = 1 :=
  ⟨rfl, rfl⟩

/-- Claim C2, amended: the event handler never reads `status.phase`; every
Added event — including one for a resource already in a terminal phase —
begins by writing phase Running, so terminal phases are not sticky and the
written phase sequence need not follow Pending to Running to terminal. -/
theorem added_event_first_writes_running (nm : String) (sp : PSpec)
    (st : Option PStatus) (env : ProfilingEnv) :
    (handleAlgorithmProfilingEvent "ADDED" ⟨nm, sp, st⟩ env).1.head?
      = some (.write (.phase nm
          (mkPhasePatch "Algorithm profiling" "Running" none))) := by
  show (createAlgorithmProfilingJob ⟨nm, sp, st⟩ env).1.head? = _
  unfold createAlgorithmProfilingJob
  rcases h : dispatchByClass ⟨nm, sp, st⟩ env with ⟨t, o⟩
  cases o <;> simp

/-- Claim C2, counterexample: a resource whose phase is already the terminal
value Failed receives an Added event, and the controller writes the phase
Running and makes a backend call — the claim demands no write and no call. -/
theorem terminal_resource_added_still_writes :
    failedSort.status = some ⟨some "Failed", some "J1"⟩ ∧
    phasesWritten (handleAlgorithmProfilingEvent "ADDED" failedSort envOk).1
      = ["Running"] ∧
    creationCalls (handleAlgorithmProfilingEvent "ADDED" failedSort envOk).1
      = 1 :=
  ⟨rfl, rfl, rfl⟩

/-- Claim C3, amended: for every ProfilingComparison resource the controller
issues exactly one compare-frameworks dispatch call regardless of how many
algorithm entries the spec declares, and the aggregate phase is never set to
Completed — a successful call writes only the comparison id and results,
while a failed call writes phase Failed. -/
theorem comparison_single_dispatch_never_completed (r : CResource)
    (post : PostResult) :
    creationCalls (handleAlgorithmComparisonEvent "ADDED" r post).1 = 1 ∧
    "Completed" ∉ phasesWritten (handleAlgorithmComparisonEvent "ADDED" r post).1 := by
  cases post <;>
    exact ⟨rfl, by
      simp [handleAlgorithmComparisonEvent, createAlgorithmComparisonJob,
        phasesWritten, Event.phaseOf, mkPhasePatch]⟩

/-- Claim C3, counterexample: a comparison resource declaring three
algorithm entries gets one dispatch call, not three, and even with a
successful backend response its phase is never set to Completed. -/
theorem comparison_three_entries_one_call :
    cmpABC.spec.algorithms.length = 3 ∧
    creationCalls
      (handleAlgorithmComparisonEvent "ADDED" cmpABC (.ok "C1")).1 = 1 ∧
    "Completed" ∉ phasesWritten
      (handleAlgorithmComparisonEvent "ADDED" cmpABC (.ok "C1")).1 :=
  ⟨rfl, rfl, by decide⟩

/-- Claim C4, amended: for every ML-class resource the dispatch is at most a
single synchronous call and the Completion Monitor is never invoked (zero
poll calls); but the first phase written is Running — not a direct
Pending-to-Completed transition — and Completed is never written at all. -/
theorem ml_dispatch_synchronous_no_monitor (nm : String) (sp : PSpec)
    (st : Option PStatus) (env : ProfilingEnv)
    (h : sp.algorithmType = some "ml") :
    pollCalls (handleAlgorithmProfilingEvent "ADDED" ⟨nm, sp, st⟩ env).1 = 0 ∧
    creationCalls (handleAlgorithmProfilingEvent "ADDED" ⟨nm, sp, st⟩ env).1 ≤ 1 ∧
    (phasesWritten (handleAlgorithmProfilingEvent "ADDED" ⟨nm, sp, st⟩ env).1).head?
      = some "Running" ∧
    "Completed" ∉ phasesWritten (handleAlgorithmProfilingEvent "ADDED" ⟨nm, sp, st⟩ env).1 := by
  have hh : handleAlgorithmProfilingEvent "ADDED" ⟨nm, sp, st⟩ env
      = createAlgorithmProfilingJob ⟨nm, sp, st⟩ env := rfl
  have hd : dispatchByClass ⟨nm, sp, st⟩ env
      = createMLProfilingJob ⟨nm, sp, st⟩ env.mlPost := by
    simp [dispatchByClass, h]
  obtain ⟨hp, hc, hw⟩ := mlPathShape ⟨nm, sp, st⟩ env.mlPost
  rw [hh]
  unfold createAlgorithmProfilingJob
  rw [hd]
  rcases hML : createMLProfilingJob ⟨nm, sp, st⟩ env.mlPost with ⟨t, o⟩
  rw [hML] at hp hc hw
  simp only [pollCalls, creationCalls, phasesWritten] at hp hc hw ⊢
  cases o <;>
    simp [List.countP_cons, List.countP_append, List.filterMap_cons,
      List.filterMap_append, hp, hc, hw, mkPhasePatch]

/-- Claim C4, witness: the amended theorem applied to the `fs-1` scenario
resource with a successful backend. -/
theorem ml_dispatch_synchronous_no_monitor_witness :
    fsSpec.algorithmType = some "ml" ∧
    (pollCalls (handleAlgorithmProfilingEvent "ADDED" ⟨"fs-1", fsSpec, none⟩ envOk).1 = 0 ∧
     creationCalls (handleAlgorithmProfilingEvent "ADDED" ⟨"fs-1", fsSpec, none⟩ envOk).1 ≤ 1 ∧
     (phasesWritten (handleAlgorithmProfilingEvent "ADDED" ⟨"fs-1", fsSpec, none⟩ envOk).1).head?
       = some "Running" ∧
     "Completed" ∉ phasesWritten (handleAlgorithmProfilingEvent "ADDED" ⟨"fs-1", fsSpec, none⟩ envOk).1) :=
  ⟨rfl, ml_dispatch_synchronous_no_monitor "fs-1" fsSpec none envOk rfl⟩

/-- Claim C4, counterexample: the `fs-1` ML resource with a successful
synchronous backend call has phase writes exactly `[Running]` — it is never
transitioned to Completed, contradicting the claimed direct
Pending-to-Completed transition (the monitor is indeed never invoked). -/
theorem ml_phase_never_completed :
    fs1.spec.algorithmType = some "ml" ∧
    phasesWritten (handleAlgorithmProfilingEvent "ADDED" fs1 envOk).1 = ["Running"] ∧
    pollCalls (handleAlgorithmProfilingEvent "ADDED" fs1 envOk).1 = 0 :=
  ⟨rfl, rfl, rfl⟩

/-- Claim C5, amended: the Completion Monitor has no timeout at all — the
declared `timeout` is never consulted; as long as the backend keeps giving
non-terminal answers the monitor issues one poll per answer, writes no
phase, and stays in its loop, never transitioning the resource to Failed
with reason TimeoutExceeded. -/
theorem monitor_never_times_out (nm j : String) (polls : List PollStep)
    (h : ∀ p ∈ polls, p.nonTerminal = true) :
    (monitorProfilingJob nm j polls).2 = .polling ∧
    pollCalls (monitorProfilingJob nm j polls).1 = polls.length ∧
    phasesWritten (monitorProfilingJob nm j polls).1 = [] := by
  induction polls with
  | nil => exact ⟨rfl, rfl, rfl⟩
  | cons p rest ih =>
    have hp := h p (List.mem_cons_self p rest)
    obtain ⟨h1, h2, h3⟩ := ih (fun q hq => h q (List.mem_cons_of_mem p hq))
    simp only [pollCalls, phasesWritten] at h2 h3 ⊢
    cases p with
    | err =>
      refine ⟨h1, ?_, ?_⟩ <;>
        simp [monitorProfilingJob, List.countP_cons, List.filterMap_cons,
          h2, h3]
    | st s rOk =>
      simp only [PollStep.nonTerminal, Bool.and_eq_true, Bool.not_eq_true',
        beq_eq_false_iff_ne, ne_eq] at hp
      refine ⟨?_, ?_, ?_⟩ <;>
        simp [monitorProfilingJob, hp.1, hp.2, List.countP_cons,
          List.filterMap_cons, h1, h2, h3]

/-- Claim C5, witness: the amended theorem applied to a concrete three-step
non-terminal poll sequence. -/
theorem monitor_never_times_out_witness :
    (∀ p ∈ [PollStep.err, .st "running" true, .st "pending" false],
       p.nonTerminal = true) ∧
    ((monitorProfilingJob "sort-1000" "J1"
        [.err, .st "running" true, .st "pending" false]).2 = .polling ∧
     pollCalls (monitorProfilingJob "sort-1000" "J1"
        [.err, .st "running" true, .st "pending" false]).1
       = [PollStep.err, .st "running" true, .st "pending" false].length ∧
     phasesWritten (monitorProfilingJob "sort-1000" "J1"
        [.err, .st "running" true, .st "pending" false]).1 = []) :=
  ⟨by decide, monitor_never_times_out "sort-1000" "J1" _ (by decide)⟩

/-- Claim C5, counterexample: a sorting resource declaring `timeout = 5`
whose backend reports `running` on two successive polls (the code sleeps 10
seconds between polls, so elapsed time exceeds 5 seconds) is still being
polled with no Failed transition and no TimeoutExceeded reason ever
written. -/
theorem sorting_timeout_never_fires :
    sortSpec.timeout = some 5 ∧
    handleAlgorithmProfilingEvent "ADDED" ⟨"sort-1000", sortSpec, none⟩ envNeverDone
      = ([.write (.phase "sort-1000"
            (mkPhasePatch "Algorithm profiling" "Running" none)),
          .call (.postJobs "bubble_sort" 1000 5),
          .write (.jobId "sort-1000" "J2"),
          .call (.getJob "J2"), .call (.getJob "J2")], .polling) ∧
    "TimeoutExceeded" ∉ reasonsWritten
      (handleAlgorithmProfilingEvent "ADDED"
        ⟨"sort-1000", sortSpec, none⟩ envNeverDone).1 ∧
    phasesWritten
      (handleAlgorithmProfilingEvent "ADDED"
        ⟨"sort-1000", sortSpec, none⟩ envNeverDone).1 = ["Running"] :=
  ⟨rfl, rfl, by decide, rfl⟩

/-- Claim C6, amended: handling a Deleted event for a resource whose status
carries `jobId = j` issues exactly one delete call referencing `j` and no
poll calls — but this holds for every algorithm class, ML included: cleanup
never looks at the algorithm class, so ML resources with a job id also get
the delete call. -/
theorem deleted_cleanup_exactly_one_delete (nm : String) (sp : PSpec)
    (ph : Option String) (j : String) (env : ProfilingEnv) :
    (handleAlgorithmProfilingEvent "DELETED" ⟨nm, sp, some ⟨ph, some j⟩⟩ env).1
      = [.call (.deleteJob j)] ∧
    deleteCallsOf j
      (handleAlgorithmProfilingEvent "DELETED" ⟨nm, sp, some ⟨ph, some j⟩⟩ env).1 = 1 ∧
    pollCalls
      (handleAlgorithmProfilingEvent "DELETED" ⟨nm, sp, some ⟨ph, some j⟩⟩ env).1 = 0 := by
  refine ⟨rfl, ?_, rfl⟩
  simp [deleteCallsOf, Event.isDeleteOf, handleAlgorithmProfilingEvent,
    cleanupAlgorithmProfilingJob]

/-- Claim C6, counterexample: deleting an ML-class resource whose status has
`jobId = "J9"` still issues a delete call — the claim says no cleanup call
is made at all for ML resources. -/
theorem ml_deletion_still_calls_delete :
    mlDeleted.spec.algorithmType = some "ml" ∧
    (handleAlgorithmProfilingEvent "DELETED" mlDeleted envOk).1
      = [.call (.deleteJob "J9")] :=
  ⟨rfl, rfl⟩

/-- Claim C7, amended: whenever the dispatch fails — any algorithm class
(sorting, ML or custom) and any failure mode (exception during the call or
HTTP error status), i.e. whenever the dispatch path ends in a raised
exception `e` — the controller sets phase Failed with a condition whose
reason is the phase string `"Failed"` (not `JobCreationError` — the error
text goes into the condition message), records the completion time, and
performs no further dispatch attempt (at most the one creation call of the
failed dispatch itself). -/
theorem dispatch_error_reason_is_failed (r : Resource) (env : ProfilingEnv)
    (t : Trace) (e : String)
    (hfail : dispatchByClass r env = (t, .raised e)) :
    handleAlgorithmProfilingEvent "ADDED" r env
      = (.write (.phase r.name (mkPhasePatch "Algorithm profiling" "Running" none))
          :: t ++
          [.write (.phase r.name
            (mkPhasePatch "Algorithm profiling" "Failed" (some e)))],
         .finished) ∧
    (mkPhasePatch "Algorithm profiling" "Failed" (some e)).reason = "Failed" ∧
    (mkPhasePatch "Algorithm profiling" "Failed" (some e)).setsCompletionTime = true ∧
    (mkPhasePatch "Algorithm profiling" "Failed" (some e)).message = e ∧
    creationCalls (handleAlgorithmProfilingEvent "ADDED" r env).1 ≤ 1 := by
  have hmain : handleAlgorithmProfilingEvent "ADDED" r env
      = (.write (.phase r.name (mkPhasePatch "Algorithm profiling" "Running" none))
          :: t ++
          [.write (.phase r.name
            (mkPhasePatch "Algorithm profiling" "Failed" (some e)))],
         .finished) := by
    show createAlgorithmProfilingJob r env = _
    unfold createAlgorithmProfilingJob
    rw [hfail]
  refine ⟨hmain, rfl, rfl, rfl, ?_⟩
  have hd := dispatch_creation_calls_le_one r env
  rw [hfail] at hd
  rw [hmain]
  simp only [creationCalls, List.countP_cons, List.countP_append] at hd ⊢
  simpa using hd

/-- Claim C7, witness: the amended theorem applied to a concrete ML-class
resource (`fs-1`) whose dispatch POST raises a network exception — one of
the dispatch-failure cases beyond the sorting/HTTP-error one. -/
theorem dispatch_error_reason_is_failed_witness :
    dispatchByClass ⟨"fs-1", fsSpec, none⟩ envMLRaised
      = ([.call (.postFeatureSelection "sklearn" 10000 100 20 1)],
         .raised "connection error") ∧
    (handleAlgorithmProfilingEvent "ADDED" ⟨"fs-1", fsSpec, none⟩ envMLRaised
      = (.write (.phase "fs-1" (mkPhasePatch "Algorithm profiling" "Running" none))
          :: [.call (.postFeatureSelection "sklearn" 10000 100 20 1)] ++
          [.write (.phase "fs-1"
            (mkPhasePatch "Algorithm profiling" "Failed" (some "connection error")))],
         .finished) ∧
     (mkPhasePatch "Algorithm profiling" "Failed" (some "connection error")).reason = "Failed" ∧
     (mkPhasePatch "Algorithm profiling" "Failed" (some "connection error")).setsCompletionTime = true ∧
     (mkPhasePatch "Algorithm profiling" "Failed" (some "connection error")).message = "connection error" ∧
     creationCalls (handleAlgorithmProfilingEvent "ADDED" ⟨"fs-1", fsSpec, none⟩ envMLRaised).1 ≤ 1) :=
  ⟨rfl, dispatch_error_reason_is_failed ⟨"fs-1", fsSpec, none⟩ envMLRaised
    [.call (.postFeatureSelection "sklearn" 10000 100 20 1)] "connection error" rfl⟩

/-- Claim C7, counterexample: on a failed dispatch the condition reasons
written are `Running` then `Failed`; the reason `JobCreationError` demanded
by the claim never appears. -/
theorem dispatch_error_no_job_creation_error_reason :
    reasonsWritten (handleAlgorithmProfilingEvent "ADDED"
      ⟨"s", sortSpec, none⟩ envDispatchErr).1 = ["Running", "Failed"] ∧
    "JobCreationError" ∉ reasonsWritten (handleAlgorithmProfilingEvent "ADDED"
      ⟨"s", sortSpec, none⟩ envDispatchErr).1 :=
  ⟨rfl, by decide⟩

/-- Claim C9: the Modified branches call `update_algorithm_profiling_status`
and `update_algorithm_comparison_status`, neither of which the class
defines, so every Modified event raises an AttributeError that propagates to
the watch loop, which abandons the remaining events of the current stream
and reconnects after a 5-second sleep. -/
theorem modified_event_raises_attribute_error :
    ("update_algorithm_profiling_status" ∉ classMethods ∧
     "update_algorithm_comparison_status" ∉ classMethods) ∧
    (∀ (r : Resource) (env : ProfilingEnv),
      handleAlgorithmProfilingEvent "MODIFIED" r env
        = ([], .raised "AttributeError: update_algorithm_profiling_status")) ∧
    (∀ (r : CResource) (post : PostResult),
      handleAlgorithmComparisonEvent "MODIFIED" r post
        = ([], .raised "AttributeError: update_algorithm_comparison_status")) ∧
    (∀ (r : Resource) (rest : List (String × Resource)) (env : ProfilingEnv),
      watchProfilingPass env (("MODIFIED", r) :: rest)
        = ([], .reconnect 5 rest)) :=
  ⟨by decide, fun _ _ => rfl, fun _ _ => rfl, fun _ _ _ => rfl⟩

/-- Claim C10: for an ML-class resource whose `mlConfig.task` is none of
the three known tasks, the dispatch path raises an unbound-local error on
`response` without issuing any backend call, and the caller's exception
handler marks the resource Failed with that error as the message. -/
theorem unknown_ml_task_unbound_local (nm : String) (sp : PSpec)
    (st : Option PStatus) (env : ProfilingEnv) (t : String)
    (hty : sp.algorithmType = some "ml") (htask : sp.mlConfig.task = some t)
    (h1 : t ≠ "feature_selection") (h2 : t ≠ "hyperparameter_tuning")
    (h3 : t ≠ "distributed_training") :
    createMLProfilingJob ⟨nm, sp, st⟩ env.mlPost = ([], .raised unboundLocalMsg) ∧
    handleAlgorithmProfilingEvent "ADDED" ⟨nm, sp, st⟩ env
      = ([.write (.phase nm (mkPhasePatch "Algorithm profiling" "Running" none)),
          .write (.phase nm
            (mkPhasePatch "Algorithm profiling" "Failed" (some unboundLocalMsg)))],
         .finished) := by
  have hml : createMLProfilingJob ⟨nm, sp, st⟩ env.mlPost
      = ([], .raised unboundLocalMsg) := by
    unfold createMLProfilingJob mlTaskCall
    simp [htask, h1, h2, h3]
  refine ⟨hml, ?_⟩
  show createAlgorithmProfilingJob ⟨nm, sp, st⟩ env = _
  unfold createAlgorithmProfilingJob
  have hd : dispatchByClass ⟨nm, sp, st⟩ env
      = createMLProfilingJob ⟨nm, sp, st⟩ env.mlPost := by
    simp [dispatchByClass, hty]
  rw [hd, hml]
  rfl

/-- Claim C10, witness: the theorem applied to a concrete ML resource whose
task is "clustering". -/
theorem unknown_ml_task_unbound_local_witness :
    badTaskSpec.algorithmType = some "ml" ∧
    badTaskSpec.mlConfig.task = some "clustering" ∧
    (createMLProfilingJob ⟨"bt", badTaskSpec, none⟩ envOk.mlPost
       = ([], .raised unboundLocalMsg) ∧
     handleAlgorithmProfilingEvent "ADDED" ⟨"bt", badTaskSpec, none⟩ envOk
       = ([.write (.phase "bt" (mkPhasePatch "Algorithm profiling" "Running" none)),
           .write (.phase "bt"
             (mkPhasePatch "Algorithm profiling" "Failed" (some unboundLocalMsg)))],
          .finished)) :=
  ⟨rfl, rfl, unknown_ml_task_unbound_local "bt" badTaskSpec none envOk "clustering"
    rfl rfl (by decide) (by decide) (by decide)⟩

end DProfiler
